import Mathlib

/-!
Shallow embedding of the `stock-prices` crawler (src/crawler.py,
src/fetch_historical.py) and verification of its specification claims.

Python-level conventions used throughout:
* A value of type `Except PyExc α` models a Python computation that may
  raise: `.error e` is a raised exception, `.ok a` a normal result.
* `try: ... except Exception: handler` is the combinator `pyTryAll`.
* Network interactions are inputs: each call site of `requests.get` (or
  `session.get`) is an environment field of type `Except PyExc <response>`,
  whose `.error` case models a transport-level exception and whose `.ok`
  case carries the observable pieces of the response that the code reads
  (status code, body text, extracted element texts).
* `float(...)` on the strings reaching it in this program (stripped,
  unsigned decimal price texts) is modelled by `pythonFloat`; inputs it
  cannot parse are parse failures, matching `ValueError`.
* `round(x, n)` is modelled as exact decimal round-half-to-even `pyRound`.
-/

/-- Python exception kinds raised by the operations this code performs. -/
inductive PyExc where
  | network
  | httpError (status : ℕ)
  | valueError
  | keyError
  | jsonError
  | fileNotFound
  | other
deriving DecidableEq, Repr

instance {ε α : Type} [DecidableEq ε] [DecidableEq α] : DecidableEq (Except ε α) := fun x y =>
  match x, y with
  | .error a, .error b =>
      if h : a = b then .isTrue (by rw [h]) else .isFalse (by intro hh; injection hh; exact h ‹_›)
  | .ok a, .ok b =>
      if h : a = b then .isTrue (by rw [h]) else .isFalse (by intro hh; injection hh; exact h ‹_›)
  | .error _, .ok _ => .isFalse (by intro h; cases h)
  | .ok _, .error _ => .isFalse (by intro h; cases h)

/-- Embeds `try: body except Exception: handler(e)`: a raised exception in
`body` is given to `handler`, a normal result passes through. -/
def pyTryAll {α : Type} (body : Except PyExc α) (handler : PyExc → Except PyExc α) :
    Except PyExc α :=
  match body with
  | .ok a => .ok a
  | .error e => handler e

/-- Embeds `s.replace('.', '')` (single-character pattern: drops every dot). -/
def replaceDotEmpty (s : String) : String := ⟨s.data.filter (fun c => c != '.')⟩

/-- Embeds `s.replace(',', '.')` (single-character pattern: maps every comma to a dot). -/
def replaceCommaDot (s : String) : String :=
  ⟨s.data.map (fun c => if c = ',' then '.' else c)⟩

/-- Embeds `s.replace('₺', '')` from the FVT fallback (drops every lira sign). -/
def replaceLiraEmpty (s : String) : String := ⟨s.data.filter (fun c => c != '₺')⟩

/-- Embeds the cleaning expression `text.replace('.', '').replace(',', '.')`
used at every Turkish-format conversion site in crawler.py. -/
def cleanTr (s : String) : String := replaceCommaDot (replaceDotEmpty s)

/-- Splits a character list at every dot; `n` dots yield `n+1` parts. -/
def splitDots : List Char → List (List Char)
  | [] => [[]]
  | c :: rest =>
      match splitDots rest with
      | [] => [[]]
      | p :: ps => if c = '.' then [] :: p :: ps else (c :: p) :: ps

/-- Decimal value of a digit list (most significant first). -/
def natOfDigits (ds : List Char) : ℕ :=
  ds.foldl (fun a c => 10 * a + (c.toNat - 48)) 0

/-- Models Python `float(s)` on the unsigned plain decimal literals that reach
it in this program: an optional single dot between digit runs, at least one
digit overall. Anything else (a second dot, a non-digit character, an empty
string) is a `ValueError`, modelled as `none`. Signs, exponents, underscores
and specials never occur in the price texts this code converts and are out of
the model's scope (also mapped to `none`). -/
def pythonFloat (s : String) : Option ℚ :=
  match splitDots s.data with
  | [ip] => if ip ≠ [] ∧ ip.all Char.isDigit then some (natOfDigits ip) else none
  | [ip, fp] =>
      if (ip ++ fp) ≠ [] ∧ ip.all Char.isDigit ∧ fp.all Char.isDigit then
        some ((natOfDigits ip : ℚ) + (natOfDigits fp : ℚ) / (10 : ℚ) ^ fp.length)
      else none
  | _ => none

/-- Embeds the conversion `float(text.replace('.', '').replace(',', '.'))`
performed on Turkish-formatted price texts (crawler.py lines 114, 126, 144,
200, 232): strip thousands dots, turn the decimal comma into a dot, parse. -/
def normalizeTurkish (s : String) : Option ℚ := pythonFloat (cleanTr s)

/-- Nearest integer with ties going to the even neighbour. -/
def roundHalfEven (q : ℚ) : ℤ :=
  let n := ⌊q⌋
  let frac := q - (n : ℚ)
  if frac < 1 / 2 then n
  else if 1 / 2 < frac then n + 1
  else if Even n then n else n + 1

/-- Models Python `round(x, nd)` as exact decimal round-half-to-even. -/
def pyRound (nd : ℕ) (q : ℚ) : ℚ :=
  (roundHalfEven (q * (10 : ℚ) ^ nd) : ℚ) / (10 : ℚ) ^ nd

/-- Embeds Python `s.strip()`: drops leading and trailing whitespace. -/
def pyStrip (s : String) : String :=
  ⟨((s.data.dropWhile Char.isWhitespace).reverse.dropWhile Char.isWhitespace).reverse⟩

/-- Embeds Python `s.lower()` for the ASCII texts this code inspects. -/
def pyLower (s : String) : String := ⟨s.data.map Char.toLower⟩

/-- Embeds Python `c in s` for a single character `c`. -/
def pyContainsChar (s : String) (c : Char) : Bool := s.data.contains c

/-- Boolean prefix test on character lists. -/
def isPrefixB : List Char → List Char → Bool
  | [], _ => true
  | _ :: _, [] => false
  | a :: as, b :: bs => a = b && isPrefixB as bs

/-- Boolean infix (substring) test on character lists, embedding Python's
`pat in text`. -/
def isInfixB (p : List Char) : List Char → Bool
  | [] => isPrefixB p []
  | c :: rest => isPrefixB p (c :: rest) || isInfixB p rest

/-- Embeds `pat in text.lower()`. -/
def lowerContains (text pat : String) : Bool :=
  isInfixB pat.data (pyLower text).data

/-- Embeds the CAPTCHA check of crawler.py line 97:
`"captcha" in response.text.lower() or "challenge" in response.text.lower()`. -/
def captchaDetected (text : String) : Bool :=
  lowerContains text "captcha" || lowerContains text "challenge"

/-- Match of the regex `\d+[,.]\d+` anchored at the start of `cs`: a maximal
nonempty digit run, one comma or dot, a maximal nonempty digit run. (For this
pattern the greedy match needs no backtracking.) -/
def matchNumAt (cs : List Char) : Option (List Char) :=
  let d1 := cs.takeWhile Char.isDigit
  if d1 = [] then none
  else
    match cs.drop d1.length with
    | sep :: rest =>
        if sep = ',' ∨ sep = '.' then
          let d2 := rest.takeWhile Char.isDigit
          if d2 = [] then none else some (d1 ++ sep :: d2)
        else none
    | [] => none

/-- Embeds `re.search(r'(\d+[,.]\d+)', s).group(1)`: the leftmost match of
the numeric pattern, or `none` when the regex does not match. -/
def regexSearchNum : List Char → Option (List Char)
  | [] => none
  | c :: rest =>
      match matchNumAt (c :: rest) with
      | some m => some m
      | none => regexSearchNum rest

/-- Embeds Python `s.isdigit()` for ASCII digit strings (nonempty, all digits);
non-ASCII digit classes never occur in the responses this code reads. -/
def pyIsdigit (s : String) : Bool := !s.data.isEmpty && s.data.all Char.isDigit

/-- Embeds `requests.Response.raise_for_status()`: raises for 4xx/5xx codes. -/
def raiseForStatus (status : ℕ) : Except PyExc Unit :=
  if 400 ≤ status then .error (.httpError status) else .ok ()

/-- Observable pieces of the Yahoo chart response (crawler.py lines 70-76):
HTTP status, and the outcome of `response.json()["chart"]["result"][0]`
`["meta"]["regularMarketPrice"]` followed by `float(...)` — `.error` when the
JSON is malformed, a key is missing or the field is not numeric. -/
structure YahooResp where
  status : ℕ
  jsonPrice : Except PyExc ℚ
deriving DecidableEq

/-- Observable pieces of the TEFAS FonAnaliz response (crawler.py lines
89-141): HTTP status, body text (for the CAPTCHA check), the stripped text of
the element at the fixed XPath (`none` when the XPath finds nothing), and the
`get_text()` values of the BeautifulSoup alternative-selector candidates. -/
structure TefasResp where
  status : ℕ
  text : String
  xpathText : Option String
  altTexts : List String
deriving DecidableEq

/-- Observable pieces of the session-based TEFAS fund response in fallback
option 1 (crawler.py lines 188-198). -/
structure FundResp where
  status : ℕ
  text : String
  xpathText : Option String
deriving DecidableEq

/-- Observable pieces of the FVT response in fallback option 2 (crawler.py
lines 216-223): status and the candidate elements' `get_text()` values. -/
structure FvtResp where
  status : ℕ
  texts : List String
deriving DecidableEq

/-- Outcome of the JSON block of fallback option 3 (crawler.py lines 249-255):
`raised` = `api_response.json()` or `float(data[0].get("Close", 0))` raised
(control passes to the text fallback of line 257); `empty` = JSON parsed but
`data and isinstance(data, list) and len(data) > 0` is false; `close q` =
`float(data[0].get("Close", 0))` evaluated to `q`. -/
inductive JsonOutcome where
  | raised
  | empty
  | close (q : ℚ)
deriving DecidableEq

/-- Observable pieces of the finans.dokuz.gen.tr API response (fallback
option 3, crawler.py lines 247-266). -/
structure ApiResp where
  status : ℕ
  json : JsonOutcome
  text : String
deriving DecidableEq

/-- Observable pieces of the usd-eur-fund-price response (fallback option 4,
crawler.py lines 276-285). -/
structure OnrenderResp where
  status : ℕ
  text : String
deriving DecidableEq

/-- The five network interactions of `fetch_tefas_price_fallback`, one field
per `requests.get`/`session.get` call site; `.error` models a raised
transport exception at that site. -/
structure FallbackUpstream where
  mainGet : Except PyExc ℕ
  fundGet : Except PyExc FundResp
  fvt : Except PyExc FvtResp
  api : Except PyExc ApiResp
  onrender : Except PyExc OnrenderResp
deriving DecidableEq

/-- The hardcoded last-resort price table of crawler.py lines 291-297. -/
def fallback_prices : List (String × ℚ) :=
  [("HFA", 2.435428), ("YAY", 1.234567), ("TTE", 3.456789),
   ("TI2", 4.567890), ("AFT", 0.678380)]

/-- Fallback option 1 (crawler.py lines 171-206): prime a session on the TEFAS
main page, re-request the fund page with the session, check status and the
(captcha-only) block marker, extract via the fixed XPath and convert; every
failure — transport exception, bad status, CAPTCHA, missing element,
`ValueError` — falls through to the next option. -/
def fallbackOption1 (fb : FallbackUpstream) : Option ℚ :=
  match fb.mainGet with
  | .error _ => none
  | .ok mainStatus =>
      if mainStatus = 200 then
        match fb.fundGet with
        | .error _ => none
        | .ok fr =>
            if fr.status = 200 ∧ ¬ lowerContains fr.text "captcha" then
              match fr.xpathText with
              | some rawT =>
                  match normalizeTurkish (pyStrip rawT) with
                  | some p => some (pyRound 6 p)
                  | none => none
              | none => none
            else none
      else none

/-- One iteration step of the FVT element loop (crawler.py lines 222-237):
strip, drop lira signs, strip again; require a comma or dot; narrow to the
regex match when one exists; convert; accept only within `(0.1, 10000)`,
otherwise (or on `ValueError`) continue with the remaining elements. -/
def fvtScan : List String → Option ℚ
  | [] => none
  | e :: rest =>
      let t := pyStrip (replaceLiraEmpty (pyStrip e))
      if t ≠ "" ∧ (pyContainsChar t ',' ∨ pyContainsChar t '.') then
        let t2 := match regexSearchNum t.data with
                  | some m => String.mk m
                  | none => t
        match normalizeTurkish t2 with
        | some p =>
            if 1 / 10 < p ∧ p < 10000 then some (pyRound 6 p) else fvtScan rest
        | none => fvtScan rest
      else fvtScan rest

/-- Fallback option 2 (crawler.py lines 209-239): the FVT page scan. -/
def fallbackOption2 (fb : FallbackUpstream) : Option ℚ :=
  match fb.fvt with
  | .error _ => none
  | .ok r => if r.status = 200 then fvtScan r.texts else none

/-- Fallback option 3 (crawler.py lines 242-268): the finans.dokuz.gen.tr
API; on a JSON Close value require only positivity; if the JSON block raised,
retry on the raw body text with `float(text.replace(',', '.'))`. -/
def fallbackOption3 (fb : FallbackUpstream) : Option ℚ :=
  match fb.api with
  | .error _ => none
  | .ok r =>
      if r.status = 200 then
        match r.json with
        | .close q => if 0 < q then some (pyRound 6 q) else none
        | .empty => none
        | .raised =>
            let t := pyStrip r.text
            if t ≠ "" ∧ (pyContainsChar t ',' ∨ pyContainsChar t '.' ∨ pyIsdigit t = true) then
              match pythonFloat (replaceCommaDot t) with
              | some p => if 0 < p then some (pyRound 6 p) else none
              | none => none
            else none
      else none

/-- Fallback option 4 (crawler.py lines 271-287): the usd-eur-fund-price
service; `float(text.replace(',', '.'))` on the stripped body, positive only. -/
def fallbackOption4 (fb : FallbackUpstream) : Option ℚ :=
  match fb.onrender with
  | .error _ => none
  | .ok r =>
      if r.status = 200 then
        match pythonFloat (replaceCommaDot (pyStrip r.text)) with
        | some p => if 0 < p then some (pyRound 6 p) else none
        | none => none
      else none

/-- Fallback option 5 (crawler.py lines 289-302): the hardcoded last-resort
table, returned without rounding and without any marking. -/
def fallbackOption5 (fund_code : String) : Option ℚ :=
  fallback_prices.lookup fund_code

/-- The five fallback attempts in their source order (crawler.py lines
161-305). -/
def fallbackOptions (fund_code : String) (fb : FallbackUpstream) : List (Option ℚ) :=
  [fallbackOption1 fb, fallbackOption2 fb, fallbackOption3 fb,
   fallbackOption4 fb, fallbackOption5 fund_code]

/-- First `some` of a list of attempts, embedding "each block either
`return`s a price or falls through to the next block". -/
def firstSome {α : Type} : List (Option α) → Option α
  | [] => none
  | some a :: _ => some a
  | none :: rest => firstSome rest

/-- Embeds `fetch_tefas_price_fallback` (crawler.py lines 161-308): the five
options in order, `None` when all fail; the whole body sits in a
`try/except` returning `None`. -/
def fetch_tefas_price_fallback (fund_code : String) (fb : FallbackUpstream) :
    Except PyExc (Option ℚ) :=
  pyTryAll (.ok (firstSome (fallbackOptions fund_code fb))) (fun _ => .ok none)

/-- Primary XPath extraction of `fetch_tefas_price` (crawler.py lines
105-130): strip the element text, convert from Turkish format; on
`ValueError` narrow to the regex match `\d+[,.]\d+` and retry; `none` when
the element is missing or both conversions fail (control then reaches the
alternative-selector scan). -/
def primaryExtract (xpathText : Option String) : Option ℚ :=
  match xpathText with
  | none => none
  | some rawT =>
      let t := pyStrip rawT
      match normalizeTurkish t with
      | some p => some (pyRound 6 p)
      | none =>
          match regexSearchNum t.data with
          | some m =>
              match normalizeTurkish (String.mk m) with
              | some p => some (pyRound 6 p)
              | none => none
          | none => none

/-- Alternative-selector scan of `fetch_tefas_price` (crawler.py lines
136-150): texts with a separator and fewer than 15 characters are converted;
only values in `(0.5, 1000)` are accepted, anything else continues the loop. -/
def altScan : List String → Option ℚ
  | [] => none
  | e :: rest =>
      let t := pyStrip e
      if t ≠ "" ∧ (pyContainsChar t ',' ∨ pyContainsChar t '.') ∧ t.data.length < 15 then
        match normalizeTurkish t with
        | some p => if 1 / 2 < p ∧ p < 1000 then some (pyRound 6 p) else altScan rest
        | none => altScan rest
      else altScan rest

/-- Body of the `try` of `fetch_tefas_price` (crawler.py lines 85-154):
request, `raise_for_status`, CAPTCHA check (short-circuits to the fallback),
primary XPath extraction, alternative-selector scan, then the fallback. -/
def tefasAttempt (fund_code : String) (u : Except PyExc TefasResp)
    (fb : FallbackUpstream) : Except PyExc (Option ℚ) :=
  match u with
  | .error e => .error e
  | .ok r =>
      match raiseForStatus r.status with
      | .error e => .error e
      | .ok _ =>
          if captchaDetected r.text then fetch_tefas_price_fallback fund_code fb
          else
            match primaryExtract r.xpathText with
            | some p => .ok (some p)
            | none =>
                match altScan r.altTexts with
                | some p => .ok (some p)
                | none => fetch_tefas_price_fallback fund_code fb

/-- Embeds `fetch_tefas_price` (crawler.py lines 81-158): the attempt body
under a `try` whose `except` also routes to `fetch_tefas_price_fallback`. -/
def fetch_tefas_price (fund_code : String) (u : Except PyExc TefasResp)
    (fb : FallbackUpstream) : Except PyExc (Option ℚ) :=
  pyTryAll (tefasAttempt fund_code u fb) (fun _ => fetch_tefas_price_fallback fund_code fb)

/-- Body of the `try` of `fetch_yahoo_price` (crawler.py lines 66-76). -/
def yahooAttempt (u : Except PyExc YahooResp) : Except PyExc (Option ℚ) :=
  match u with
  | .error e => .error e
  | .ok r =>
      match raiseForStatus r.status with
      | .error e => .error e
      | .ok _ =>
          match r.jsonPrice with
          | .error e => .error e
          | .ok p => .ok (some (pyRound 2 p))

/-- Embeds `fetch_yahoo_price` (crawler.py lines 62-79): request,
`raise_for_status`, JSON field extraction, `round(float(price), 2)`; any
exception yields `None`. -/
def fetch_yahoo_price (u : Except PyExc YahooResp) : Except PyExc (Option ℚ) :=
  pyTryAll (yahooAttempt u) (fun _ => .ok none)

/-- One market entry of the `MARKETS` table (crawler.py lines 14-38). -/
structure MarketConfig where
  tickers : List String
  crawler : String
  currency : String
deriving DecidableEq

/-- The `MARKETS` configuration table of crawler.py lines 14-38 (the US, UK
and EU ticker lists are commented out in the source, hence empty). -/
def MARKETS : List (String × MarketConfig) :=
  [("us", ⟨[], "yahoo", "$"⟩),
   ("uk", ⟨[], "yahoo", "£"⟩),
   ("eu", ⟨[], "yahoo", "€"⟩),
   ("tr-tefas", ⟨["HFA", "YAY", "TTE", "TI2", "AFT", "IIE", "BDS"], "tefas", "₺"⟩)]

/-- Embeds `MARKETS[market]["currency"]` for the markets of the table; the
`getD` default stands for the `KeyError` of an unknown market, which no
caller reaches. -/
def marketCurrency (market : String) : String :=
  ((MARKETS.lookup market).map MarketConfig.currency).getD ""

/-- Embeds `fetch_price` (crawler.py lines 50-60): dispatch on the market's
crawler type; an unknown market raises `KeyError` at `MARKETS[market]`, an
unknown crawler type prints and returns `None`. -/
def fetch_price (ticker market : String) (yu : Except PyExc YahooResp)
    (tu : Except PyExc TefasResp) (fb : FallbackUpstream) : Except PyExc (Option ℚ) :=
  match MARKETS.lookup market with
  | none => .error .keyError
  | some cfg =>
      if cfg.crawler = "tefas" then fetch_tefas_price ticker tu fb
      else if cfg.crawler = "yahoo" then fetch_yahoo_price yu
      else .ok none

/-- One `requests.get`/`session.get` call site of crawler.py, with the
timeout argument it passes (`none` = no `timeout=` keyword). -/
structure RequestSite where
  caller : String
  line : ℕ
  timeout : Option ℕ
deriving DecidableEq

/-- Every HTTP request call site of crawler.py, in source order, with the
timeout each one passes. -/
def requestCallSites : List RequestSite :=
  [⟨"fetch_yahoo_price", 70, none⟩,
   ⟨"fetch_tefas_price", 89, none⟩,
   ⟨"fetch_tefas_price_fallback.main", 183, some 10⟩,
   ⟨"fetch_tefas_price_fallback.fund", 188, some 10⟩,
   ⟨"fetch_tefas_price_fallback.fvt", 216, some 10⟩,
   ⟨"fetch_tefas_price_fallback.api", 247, some 10⟩,
   ⟨"fetch_tefas_price_fallback.onrender", 276, some 10⟩]

/-- Content of a persisted file, at the interface level of the snapshot
renderer: the structured fields the string templating fills in. The two
template branches of `save_price` (loaded template vs built-in fallback,
crawler.py lines 319-359) fill the same fields and differ only in markup. -/
inductive FileContent where
  | priceHtml (ticker currency : String) (price : ℚ) (date market : String)
  | priceTxt (price : ℚ)
  | degradedHtml (ticker currency : String) (lastKnown : FileContent)
      (shownDate warning errorMessage market : String)
  | plainErrorHtml (ticker errorMessage date market : String)
  | errorTxt (message : String)
deriving DecidableEq

/-- One file of the data directory with its modification time. -/
structure FileEntry where
  path : String
  content : FileContent
  mtime : ℕ
deriving DecidableEq

/-- The data directory: the files, plus a clock handing out strictly
increasing modification times. -/
structure Store where
  files : List FileEntry
  clock : ℕ
deriving DecidableEq

/-- The empty data directory. -/
def emptyStore : Store := ⟨[], 0⟩

/-- Writes (creates or overwrites) one file, stamping the current clock. -/
def setFile (st : Store) (path : String) (c : FileContent) : Store :=
  ⟨⟨path, c, st.clock⟩ :: st.files.filter (fun e => e.path != path), st.clock + 1⟩

/-- Reads one file's content. -/
def getFile (st : Store) (path : String) : Option FileContent :=
  (st.files.find? (fun e => e.path == path)).map FileEntry.content

/-- The `data/<market>/<ticker>` directory prefix. -/
def tickerDir (market ticker : String) : String :=
  "data/" ++ market ++ "/" ++ ticker

/-- Embeds `save_price` (crawler.py lines 310-374): renders the price page
and writes, in source order, `{date}.html`, `latest.html`, `{date}.txt` and
`latest.txt` — the latest pointers unconditionally, whatever `date` is. -/
def save_price (market ticker : String) (price : ℚ) (date : String) (st : Store) :
    Store :=
  let dir := tickerDir market ticker
  let currency := marketCurrency market
  let html := FileContent.priceHtml ticker currency price date market
  let st1 := setFile st (dir ++ "/" ++ date ++ ".html") html
  let st2 := setFile st1 (dir ++ "/latest.html") html
  let st3 := setFile st2 (dir ++ "/" ++ date ++ ".txt") (.priceTxt price)
  setFile st3 (dir ++ "/latest.txt") (.priceTxt price)

/-- Stem of an entry of `glob("*.html")` on a ticker directory: `some s` when
`path = dir ++ "/" ++ s ++ ".html"` with `s` free of slashes. -/
def htmlStem (dir path : String) : Option String :=
  let d := (dir ++ "/").data
  let suffix := (".html" : String).data
  if isPrefixB d path.data ∧ isPrefixB suffix.reverse path.data.reverse then
    let mid := path.data.drop d.length
    let s := mid.take (mid.length - suffix.length)
    if s.contains '/' then none else some ⟨s⟩
  else none

/-- Embeds the last-success-date scan of `save_error_page` (crawler.py lines
394-402): the stems of the ticker directory's `*.html` files other than
`latest` and today's, sorted by modification time newest first, first entry;
`none` when there is no such file. -/
def lastDatedHtml (st : Store) (dir today : String) : Option String :=
  let cands := st.files.filterMap (fun e =>
    match htmlStem dir e.path with
    | some s => if s ≠ "latest" ∧ s ≠ today then some (s, e.mtime) else none
    | none => none)
  (cands.foldl (fun acc c =>
    match acc with
    | none => some c
    | some b => if b.2 < c.2 then some c else some b) none).map Prod.fst

/-- The warning line of the degraded page (crawler.py line 449). -/
def staleWarning (lastSuccessDate : Option String) : String :=
  let d := lastSuccessDate.getD "a previous fetch"
  "This is the last known price from " ++ d ++ ". Current price fetch failed."

/-- Embeds `save_error_page` (crawler.py lines 376-494). Reads `latest.txt`
and scans for the last dated page; when the template file exists it writes
`{date}.html` (the degraded page showing the latest stored value, the
computed date — `"Unknown"` when the scan finds nothing — the warning and
the error message, or a minimal error page when no latest value exists) and
`{date}.txt` (`ERROR: <message>`); when the template file is missing the
`FileNotFoundError` reaches the outer `except` and nothing is written. -/
def save_error_page (market ticker errorMessage date today : String)
    (templateExists : Bool) (st : Store) : Store :=
  let dir := tickerDir market ticker
  let currency := marketCurrency market
  let latestRead := getFile st (dir ++ "/latest.txt")
  let lastSuccessDate := lastDatedHtml st dir today
  if templateExists then
    match latestRead with
    | some lc =>
        let html := FileContent.degradedHtml ticker currency lc
          (lastSuccessDate.getD "Unknown") (staleWarning lastSuccessDate)
          errorMessage market
        let st1 := setFile st (dir ++ "/" ++ date ++ ".html") html
        setFile st1 (dir ++ "/" ++ date ++ ".txt") (.errorTxt ("ERROR: " ++ errorMessage))
    | none =>
        let st1 := setFile st (dir ++ "/" ++ date ++ ".html")
          (.plainErrorHtml ticker errorMessage date market)
        setFile st1 (dir ++ "/" ++ date ++ ".txt") (.errorTxt ("ERROR: " ++ errorMessage))
  else st

/-- Printable label of an exception, for the orchestrator's error message. -/
def pyExcMessage : PyExc → String
  | .network => "network error"
  | .httpError _ => "http error"
  | .valueError => "invalid literal"
  | .keyError => "key error"
  | .jsonError => "json error"
  | .fileNotFound => "file not found"
  | .other => "error"

/-- Embeds the per-ticker step of `main` (crawler.py lines 507-530): a
non-`None` fetch result is recorded with `save_price`; `None` and raised
exceptions produce an error page via `save_error_page`. -/
def processTicker (market ticker : String) (res : Except PyExc (Option ℚ))
    (today : String) (templateExists : Bool) (st : Store) : Store :=
  match res with
  | .ok (some p) => save_price market ticker p today st
  | .ok none =>
      save_error_page market ticker "Failed to fetch price (unknown error)"
        today today templateExists st
  | .error e =>
      let msg := "Exception while processing " ++ ticker ++ ": " ++ pyExcMessage e
      save_error_page market ticker msg today today templateExists st

/-- The top-level names the module `crawler` defines (its functions, the two
module constants, and the names bound by its own imports). -/
def crawlerModuleAttrs : List String :=
  ["datetime", "requests", "time", "Path", "BeautifulSoup", "etree",
   "MARKETS", "DATA_DIR", "ensure_directories", "fetch_price",
   "fetch_yahoo_price", "fetch_tefas_price", "fetch_tefas_price_fallback",
   "save_price", "save_error_page", "main"]

/-- The names `fetch_historical.py` line 11 imports from `crawler`:
`from crawler import fetch_all_tefas_data, save_daily_data, MARKETS`. -/
def fetchHistoricalImports : List String :=
  ["fetch_all_tefas_data", "save_daily_data", "MARKETS"]

/-- Models Python `from crawler import a, b, c`: succeeds only when every
requested name is an attribute of the module; otherwise `ImportError` naming
the first missing one, raised while the importing module loads. -/
def importFromCrawler : Except String Unit :=
  match fetchHistoricalImports.find? (fun n => !(crawlerModuleAttrs.contains n)) with
  | some n => .error n
  | none => .ok ()

/-- Models running `fetch_historical.py`: the import line executes at module
load, before any function body; only when it succeeds does the
`fetch_historical_data` driver (abstracted as `driver`) run. -/
def runFetchHistorical {α : Type} (driver : ℕ → α) (daysBack : ℕ) : Except String α :=
  match importFromCrawler with
  | .error n => .error n
  | .ok _ => .ok (driver daysBack)

/-- Fallback environment in which every network interaction raises a
transport error: every strategy with a network component fails. -/
def fbAllFail : FallbackUpstream :=
  ⟨.error .network, .error .network, .error .network, .error .network, .error .network⟩

/-- Result of resolving fund `AFT` when the primary TEFAS request and all
five fallback network interactions fail. -/
def c1Result : Except PyExc (Option ℚ) := fetch_tefas_price "AFT" (.error .network) fbAllFail

/-- A TEFAS response whose XPath element text parses to 15000 — far outside
the plausible fund range `(0.1, 10000)` used elsewhere in the same file. -/
def respOutOfRange : TefasResp := ⟨200, "", some "15.000,0000", []⟩

/-- Fallback environment where options 1 and 2 fail on transport, option 3
succeeds with a JSON Close value of 1.5, and options 4 and 5 are irrelevant. -/
def fbChainWitnessEnv : FallbackUpstream :=
  ⟨.error .network, .error .network, .error .network,
   .ok ⟨200, .close (3 / 2), ""⟩, .error .network⟩

/-- Store after recording the newer date 2024-01-11 first. -/
def c6Store1 : Store := save_price "tr-tefas" "AFT" (7 / 10) "2024-01-11" emptyStore

/-- Store after then backfilling the older date 2024-01-10. -/
def c6Store2 : Store := save_price "tr-tefas" "AFT" (1 / 2) "2024-01-10" c6Store1

/-- Store holding one successful observation, value 0.678380 recorded for
date 2024-01-10. -/
def c7Store1 : Store := save_price "tr-tefas" "AFT" 0.678380 "2024-01-10" emptyStore

/-- Store after a fetch failure later on the same day 2024-01-10. -/
def c7Store2 : Store :=
  save_error_page "tr-tefas" "AFT" "Failed to fetch price (unknown error)"
    "2024-01-10" "2024-01-10" true c7Store1

theorem splitDots_length : ∀ cs : List Char, (splitDots cs).length = cs.count '.' + 1
  | [] => rfl
  | c :: rest => by
      have ih := splitDots_length rest
      unfold splitDots
      cases h : splitDots rest with
      | nil => rw [h] at ih; simp at ih
      | cons p ps =>
          rw [h] at ih
          by_cases hc : c = '.'
          · simp [hc, List.count_cons] at ih ⊢; omega
          · simp [hc, List.count_cons] at ih ⊢; omega

theorem pythonFloat_multiDot (t : String) (h : 2 ≤ t.data.count '.') :
    pythonFloat t = none := by
  have hl : 3 ≤ (splitDots t.data).length := by
    rw [splitDots_length]; omega
  rcases hsd : splitDots t.data with _ | ⟨a, _ | ⟨b, _ | ⟨c, l⟩⟩⟩ <;>
    rw [hsd] at hl <;> simp at hl
  simp [pythonFloat, hsd]

theorem firstSome_of_prefix {α : Type} :
    ∀ (l : List (Option α)) (i : ℕ) (v : α),
      (∀ j, j < i → l.getD j none = none) → l.getD i none = some v →
      firstSome l = some v
  | [], i, v, _, hi => by simp [List.getD] at hi
  | x :: xs, 0, v, _, hi => by
      simp [List.getD] at hi
      simp [hi, firstSome]
  | x :: xs, i + 1, v, hj, hi => by
      have hx : x = none := by
        have := hj 0 (Nat.succ_pos i)
        simpa [List.getD] using this
      subst hx
      simp only [firstSome]
      exact firstSome_of_prefix xs i v
        (fun j hji => by
          have := hj (j + 1) (by omega)
          simpa [List.getD] using this)
        (by simpa [List.getD] using hi)

theorem find?_filter_ne (l : List FileEntry) (p q : String) (h : q ≠ p) :
    (l.filter (fun e => e.path != p)).find? (fun e => e.path == q) =
      l.find? (fun e => e.path == q) := by
  induction l with
  | nil => rfl
  | cons a l ih =>
      by_cases hap : a.path = p
      · have haq : (a.path == q) = false := by
          simp [hap]; exact fun hh => h hh.symm
        have hpq : (p == q) = false := by
          simp; exact fun hh => h hh.symm
        simp [List.filter, hap, List.find?, haq, hpq, ih]
      · simp only [List.filter]
        have : (a.path != p) = true := by simp [hap]
        rw [this]
        simp only [List.find?]
        cases hq : (a.path == q) with
        | true => rfl
        | false => exact ih

theorem getFile_setFile_self (st : Store) (p : String) (c : FileContent) :
    getFile (setFile st p c) p = some c := by
  simp [getFile, setFile, List.find?]

theorem getFile_setFile_ne (st : Store) (p q : String) (c : FileContent) (h : q ≠ p) :
    getFile (setFile st p c) q = getFile st q := by
  have hpq : (p == q) = false := by
    simp; exact fun hh => h hh.symm
  simp [getFile, setFile, List.find?, hpq, find?_filter_ne st.files p q h]

theorem txtPath_ne_htmlPath (x : String) : x ++ ".txt" ≠ x ++ ".html" := by
  intro h
  have hlen : (x ++ ".txt").length = (x ++ ".html").length := by rw [h]
  rw [String.length_append, String.length_append] at hlen
  have h1 : (".txt" : String).length = 4 := rfl
  have h2 : (".html" : String).length = 5 := rfl
  omega

/-- C5 (confirmed): in the Turkish locale the normalization strips the
thousands dots, substitutes the decimal comma with a dot and parses the
result ("5.800,0980" normalizes to 5800.0980 = 2900049/500), and a cleaned
string still holding more than one decimal separator is rejected with a
parse failure instead of yielding a value. -/
theorem turkish_normalization_correct :
    normalizeTurkish "5.800,0980" = some (2900049 / 500) ∧
    ∀ s : String, 2 ≤ (cleanTr s).data.count '.' → normalizeTurkish s = none := by
  constructor
  · simp +decide [normalizeTurkish, cleanTr, replaceDotEmpty, replaceCommaDot, pythonFloat,
      splitDots, natOfDigits]
    norm_num
  · intro s h
    exact pythonFloat_multiDot (cleanTr s) h

/-- C5 witness: "1,2,3" cleans to "1.2.3", which holds two separators and is
rejected. -/
theorem turkish_normalization_witness :
    2 ≤ (cleanTr "1,2,3").data.count '.' ∧ normalizeTurkish "1,2,3" = none :=
  ⟨by decide, turkish_normalization_correct.2 "1,2,3" (by decide)⟩

/-- C3 (confirmed): the strategies are tried strictly in their configured
order and the first success wins — if every fallback option before `i` fails
and option `i` yields `v`, the fallback resolves to `v`; and inside
`fetch_tefas_price` a primary-extraction success is returned before the
alternative scan or the fallback are consulted. No aggregation happens. -/
theorem fallbackChain_first_success_wins :
    (∀ (fund : String) (fb : FallbackUpstream) (i : ℕ) (v : ℚ),
      (∀ j, j < i → (fallbackOptions fund fb).getD j none = none) →
      (fallbackOptions fund fb).getD i none = some v →
      fetch_tefas_price_fallback fund fb = .ok (some v)) ∧
    (∀ (fund : String) (r : TefasResp) (fb : FallbackUpstream) (p : ℚ),
      r.status = 200 → captchaDetected r.text = false →
      primaryExtract r.xpathText = some p →
      fetch_tefas_price fund (.ok r) fb = .ok (some p)) := by
  constructor
  · intro fund fb i v hj hi
    have h := firstSome_of_prefix (fallbackOptions fund fb) i v hj hi
    simp [fetch_tefas_price_fallback, pyTryAll, h]
  · intro fund r fb p hs hc hp
    simp [fetch_tefas_price, pyTryAll, tefasAttempt, raiseForStatus, hs, hc, hp]

/-- C3 witness: options 1 and 2 fail on transport, option 3 succeeds with
1.5; the fallback resolves to option 3's value. -/
theorem fallbackChain_first_success_wins_witness :
    (fallbackOptions "YAY" fbChainWitnessEnv).getD 0 none = none ∧
    (fallbackOptions "YAY" fbChainWitnessEnv).getD 1 none = none ∧
    (fallbackOptions "YAY" fbChainWitnessEnv).getD 2 none = some (3 / 2) ∧
    fetch_tefas_price_fallback "YAY" fbChainWitnessEnv = .ok (some (3 / 2)) := by
  have h0 : (fallbackOptions "YAY" fbChainWitnessEnv).getD 0 none = none := rfl
  have h1 : (fallbackOptions "YAY" fbChainWitnessEnv).getD 1 none = none := rfl
  have h2 : (fallbackOptions "YAY" fbChainWitnessEnv).getD 2 none = some (3 / 2) := by
    show fallbackOption3 fbChainWitnessEnv = some (3 / 2)
    simp [fallbackOption3, fbChainWitnessEnv]
    norm_num [pyRound, roundHalfEven]
  refine ⟨h0, h1, h2, ?_⟩
  exact fallbackChain_first_success_wins.1 "YAY" fbChainWitnessEnv 2 (3 / 2)
    (by intro j hj; interval_cases j; exacts [h0, h1]) h2

/-- C9 (confirmed): for every upstream behaviour, `fetch_yahoo_price`,
`fetch_tefas_price` and `fetch_tefas_price_fallback` return a normal result
(a price or `None`); no exception escapes to the caller. -/
theorem fetchers_never_raise :
    (∀ u : Except PyExc YahooResp, ∃ o, fetch_yahoo_price u = .ok o) ∧
    (∀ (fund : String) (u : Except PyExc TefasResp) (fb : FallbackUpstream),
      ∃ o, fetch_tefas_price fund u fb = .ok o) ∧
    (∀ (fund : String) (fb : FallbackUpstream),
      ∃ o, fetch_tefas_price_fallback fund fb = .ok o) := by
  refine ⟨fun u => ?_, fun fund u fb => ?_, fun fund fb => ?_⟩
  · cases h : yahooAttempt u with
    | ok a => exact ⟨a, by simp [fetch_yahoo_price, pyTryAll, h]⟩
    | error e => exact ⟨none, by simp [fetch_yahoo_price, pyTryAll, h]⟩
  · cases h : tefasAttempt fund u fb with
    | ok a => exact ⟨a, by simp [fetch_tefas_price, pyTryAll, h]⟩
    | error e =>
        exact ⟨firstSome (fallbackOptions fund fb),
          by simp [fetch_tefas_price, pyTryAll, h, fetch_tefas_price_fallback]⟩
  · exact ⟨firstSome (fallbackOptions fund fb), rfl⟩

/-- C10 (confirmed): loading `fetch_historical.py` fails at its import line —
`fetch_all_tefas_data` is not an attribute of the crawler module — so the
`fetch_historical_data` driver is never reached, whatever it would do. -/
theorem fetch_historical_import_fails :
    ∀ (α : Type) (driver : ℕ → α) (daysBack : ℕ),
      runFetchHistorical driver daysBack = .error "fetch_all_tefas_data" :=
  fun _ _ _ => rfl

/-- C1 counterexample: with the primary request and all five fallback
network interactions failing, resolving `AFT` returns the hardcoded table
value 0.678380 as an ordinary success — the same `.ok (some _)` shape as a
live observation — and the orchestrator records it as a fresh price in
`latest.txt` with no staleness or degraded marking anywhere. -/
theorem hardcodedFallback_AFT_success_cex :
    c1Result = .ok (some 0.678380) ∧
    getFile (processTicker "tr-tefas" "AFT" c1Result "2024-01-15" true emptyStore)
        "data/tr-tefas/AFT/latest.txt" = some (.priceTxt 0.678380) := by
  constructor <;> with_unfolding_all rfl

/-- C1 (corrected): when every network strategy fails, the fallback returns
exactly the hardcoded table lookup — for funds in the table an unmarked
plain success indistinguishable from a live price, `None` only for funds
absent from the table. -/
theorem hardcodedFallback_allNetworkFail_eq_lookup :
    ∀ (fund : String) (fb : FallbackUpstream),
      (∃ e, fb.mainGet = .error e) → (∃ e, fb.fundGet = .error e) →
      (∃ e, fb.fvt = .error e) → (∃ e, fb.api = .error e) →
      (∃ e, fb.onrender = .error e) →
      fetch_tefas_price_fallback fund fb = .ok (fallback_prices.lookup fund) := by
  rintro fund fb ⟨e1, h1⟩ ⟨e2, h2⟩ ⟨e3, h3⟩ ⟨e4, h4⟩ ⟨e5, h5⟩
  simp [fetch_tefas_price_fallback, pyTryAll, fallbackOptions, fallbackOption1,
    fallbackOption2, fallbackOption3, fallbackOption4, fallbackOption5,
    h1, h2, h3, h4, h5]
  cases fallback_prices.lookup fund <;> simp [firstSome]

/-- C1 witness: for `AFT` under total network failure the fallback yields
the table value 0.678380 as a plain success. -/
theorem hardcodedFallback_allNetworkFail_eq_lookup_witness :
    (∃ e, fbAllFail.mainGet = Except.error e) ∧
    fetch_tefas_price_fallback "AFT" fbAllFail = .ok (some 0.678380) :=
  ⟨⟨.network, rfl⟩,
   (hardcodedFallback_allNetworkFail_eq_lookup "AFT" fbAllFail ⟨.network, rfl⟩
      ⟨.network, rfl⟩ ⟨.network, rfl⟩ ⟨.network, rfl⟩ ⟨.network, rfl⟩).trans rfl⟩

/-- C2 (corrected): whatever value the primary XPath text parses to is
returned untouched by any range check — the validation intervals exist only
on the alternative-selector path (0.5, 1000), the FVT path (0.1, 10000) and
the positivity-only API paths. -/
theorem primaryPath_returns_unvalidated :
    ∀ (fund : String) (r : TefasResp) (fb : FallbackUpstream) (t : String) (q : ℚ),
      r.status = 200 → captchaDetected r.text = false →
      r.xpathText = some t → normalizeTurkish (pyStrip t) = some q →
      fetch_tefas_price fund (.ok r) fb = .ok (some (pyRound 6 q)) := by
  intro fund r fb t q hs hc hx hq
  simp [fetch_tefas_price, pyTryAll, tefasAttempt, raiseForStatus, hs, hc,
    primaryExtract, hx, hq]

/-- C2 witness: the primary path returns 15000 (rounded to six decimals)
without consulting any plausible range. -/
theorem primaryPath_returns_unvalidated_witness :
    normalizeTurkish (pyStrip "15.000,0000") = some 15000 ∧
    fetch_tefas_price "TI2" (.ok respOutOfRange) fbAllFail = .ok (some (pyRound 6 15000)) := by
  have h1 : normalizeTurkish (pyStrip "15.000,0000") = some 15000 := by
    simp +decide [pyStrip, normalizeTurkish, cleanTr, replaceDotEmpty, replaceCommaDot,
      pythonFloat, splitDots, natOfDigits]
  exact ⟨h1, primaryPath_returns_unvalidated "TI2" respOutOfRange fbAllFail
    "15.000,0000" 15000 rfl (by decide) rfl h1⟩

/-- C2 counterexample: the primary XPath path applies no range validation —
an element text of "15.000,0000" (15000, outside the plausible fund range
(0.1, 10000)) is returned as a success, not rejected, and would be recorded
as the fresh price. -/
theorem outOfRange_not_rejected_cex :
    fetch_tefas_price "TI2" (.ok respOutOfRange) fbAllFail = .ok (some 15000) ∧
    getFile (processTicker "tr-tefas" "TI2" (.ok (some 15000)) "2024-01-15" true emptyStore)
        "data/tr-tefas/TI2/latest.txt" = some (.priceTxt 15000) ∧
    ¬ ((1 / 10 : ℚ) < 15000 ∧ (15000 : ℚ) < 10000) := by
  refine ⟨?_, by with_unfolding_all rfl, by norm_num⟩
  have h1 : normalizeTurkish (pyStrip "15.000,0000") = some 15000 := by
    simp +decide [pyStrip, normalizeTurkish, cleanTr, replaceDotEmpty, replaceCommaDot,
      pythonFloat, splitDots, natOfDigits]
  have h2 : pyRound 6 (15000 : ℚ) = 15000 := by norm_num [pyRound, roundHalfEven]
  simp +decide [fetch_tefas_price, pyTryAll, tefasAttempt, raiseForStatus, respOutOfRange,
    captchaDetected, lowerContains, pyLower, isInfixB, isPrefixB, primaryExtract, h1, h2]

/-- C4 counterexample: not every request call site passes a timeout — the
Yahoo and primary TEFAS `requests.get` calls pass none, so those requests
can run unbounded. -/
theorem request_timeout_missing_cex :
    ¬ ∀ s ∈ requestCallSites, (RequestSite.timeout s).isSome = true := by decide

/-- C4 (corrected): exactly the five fallback call sites pass a timeout — a
hardcoded 10 seconds, not a caller-supplied value — while the
`fetch_yahoo_price` and primary `fetch_tefas_price` requests pass none. -/
theorem request_timeouts_map :
    requestCallSites.map RequestSite.timeout =
      [none, none, some 10, some 10, some 10, some 10, some 10] := by decide

/-- C6 counterexample: with the newer date 2024-01-11 (price 0.7) recorded
first and the older date 2024-01-10 (price 0.5) backfilled afterwards,
`latest.txt` holds the older observation's value, not the newer one:
`latest` follows wall-clock insertion order, not date order. -/
theorem backfill_clobbers_latest_cex :
    getFile c6Store1 "data/tr-tefas/AFT/latest.txt" = some (.priceTxt (7 / 10)) ∧
    getFile c6Store2 "data/tr-tefas/AFT/latest.txt" = some (.priceTxt (1 / 2)) ∧
    FileContent.priceTxt (1 / 2) ≠ FileContent.priceTxt (7 / 10) := by
  refine ⟨by with_unfolding_all rfl, by with_unfolding_all rfl, ?_⟩
  intro h
  injection h with h'
  norm_num at h'

/-- C6 (corrected): `save_price` unconditionally overwrites the latest
pointer with every recorded observation, whatever its date — so `latest`
reflects the most recent write, and backfilling an older date makes `latest`
report the older observation. -/
theorem save_price_overwrites_latest :
    ∀ (market ticker : String) (price : ℚ) (date : String) (st : Store),
      getFile (save_price market ticker price date st)
        (tickerDir market ticker ++ "/latest.txt") = some (.priceTxt price) := by
  intro market ticker price date st
  simp only [save_price]
  exact getFile_setFile_self _ _ _

/-- C7 counterexample: a successful observation (0.678380) is recorded for
2024-01-10; a fetch failure later the same day renders the degraded page
with the last known value and the explicit failure warning, but its date
field reads "Unknown" and its warning says "a previous fetch" — the date the
value was obtained (2024-01-10) is not surfaced. -/
theorem error_page_wrong_date_cex :
    getFile c7Store1 "data/tr-tefas/AFT/2024-01-10.txt" = some (.priceTxt 0.678380) ∧
    getFile c7Store2 "data/tr-tefas/AFT/2024-01-10.html" =
      some (.degradedHtml "AFT" "₺" (.priceTxt 0.678380) "Unknown"
        (staleWarning none) "Failed to fetch price (unknown error)" "tr-tefas") ∧
    staleWarning none =
      "This is the last known price from a previous fetch. Current price fetch failed." ∧
    ("Unknown" : String) ≠ "2024-01-10" := by
  refine ⟨by with_unfolding_all rfl, by with_unfolding_all rfl, rfl, by decide⟩

/-- C7 (corrected): when the template exists and a latest value is stored,
the degraded page always shows that last known value and the explicit
"Current price fetch failed." warning, but the date it shows is the stem of
the most-recently-modified dated HTML file other than today's — "Unknown"
when no such file exists — which is not necessarily the date the last known
value was obtained. -/
theorem error_page_shows_value_and_marker :
    ∀ (market ticker msg date today : String) (st : Store) (lc : FileContent),
      getFile st (tickerDir market ticker ++ "/latest.txt") = some lc →
      getFile (save_error_page market ticker msg date today true st)
          (tickerDir market ticker ++ "/" ++ date ++ ".html") =
        some (.degradedHtml ticker (marketCurrency market) lc
          ((lastDatedHtml st (tickerDir market ticker) today).getD "Unknown")
          (staleWarning (lastDatedHtml st (tickerDir market ticker) today)) msg market) := by
  intro market ticker msg date today st lc hl
  unfold save_error_page
  simp only [hl, reduceIte]
  rw [getFile_setFile_ne _ _ _ _ (Ne.symm (txtPath_ne_htmlPath _))]
  exact getFile_setFile_self _ _ _

/-- C7 witness: instantiating the degraded render at the concrete same-day
store. -/
theorem error_page_shows_value_and_marker_witness :
    getFile c7Store1 (tickerDir "tr-tefas" "AFT" ++ "/latest.txt") =
      some (.priceTxt 0.678380) ∧
    getFile (save_error_page "tr-tefas" "AFT" "Failed to fetch price (unknown error)"
        "2024-01-10" "2024-01-10" true c7Store1)
        (tickerDir "tr-tefas" "AFT" ++ "/" ++ "2024-01-10" ++ ".html") =
      some (.degradedHtml "AFT" (marketCurrency "tr-tefas") (.priceTxt 0.678380)
        ((lastDatedHtml c7Store1 (tickerDir "tr-tefas" "AFT") "2024-01-10").getD "Unknown")
        (staleWarning (lastDatedHtml c7Store1 (tickerDir "tr-tefas" "AFT") "2024-01-10"))
        "Failed to fetch price (unknown error)" "tr-tefas") :=
  ⟨by with_unfolding_all rfl,
   error_page_shows_value_and_marker "tr-tefas" "AFT"
     "Failed to fetch price (unknown error)" "2024-01-10" "2024-01-10" c7Store1
     (.priceTxt 0.678380) (by with_unfolding_all rfl)⟩

/-- C8 counterexample: the failed date already carried a recorded
observation (0.678380 in 2024-01-10.txt); producing the error artifact for
that same date overwrites it with `ERROR: ...` — a previously recorded
per-date observation does not remain unchanged. -/
theorem same_date_observation_overwritten_cex :
    getFile c7Store1 "data/tr-tefas/AFT/2024-01-10.txt" =
      some (FileContent.priceTxt 0.678380) ∧
    getFile c7Store2 "data/tr-tefas/AFT/2024-01-10.txt" =
      some (FileContent.errorTxt "ERROR: Failed to fetch price (unknown error)") ∧
    ∀ q : ℚ, FileContent.errorTxt "ERROR: Failed to fetch price (unknown error)" ≠
      FileContent.priceTxt q := by
  refine ⟨by with_unfolding_all rfl, by with_unfolding_all rfl, ?_⟩
  intro q h
  cases h

/-- C8 (corrected): on a degraded outcome `save_error_page` touches only the
failed date's two artifact files — `latest.txt`, `latest.html` and every
file of any other date are left unchanged — but the failed date's own files
are overwritten when that date already held an observation. -/
theorem save_error_page_frame :
    ∀ (market ticker msg date today : String) (tmpl : Bool) (st : Store) (p : String),
      p ≠ tickerDir market ticker ++ "/" ++ date ++ ".html" →
      p ≠ tickerDir market ticker ++ "/" ++ date ++ ".txt" →
      getFile (save_error_page market ticker msg date today tmpl st) p = getFile st p := by
  intro market ticker msg date today tmpl st p hh ht
  unfold save_error_page
  cases tmpl with
  | false => simp
  | true =>
      simp only [if_true]
      cases getFile st (tickerDir market ticker ++ "/latest.txt") with
      | some lc =>
          simp only []
          rw [getFile_setFile_ne _ _ _ _ ht, getFile_setFile_ne _ _ _ _ hh]
      | none =>
          simp only []
          rw [getFile_setFile_ne _ _ _ _ ht, getFile_setFile_ne _ _ _ _ hh]

/-- C8 witness: the latest pointer survives the degraded render of the
concrete scenario unchanged. -/
theorem save_error_page_frame_witness :
    ("data/tr-tefas/AFT/latest.txt" : String) ≠
        tickerDir "tr-tefas" "AFT" ++ "/" ++ "2024-01-10" ++ ".html" ∧
    ("data/tr-tefas/AFT/latest.txt" : String) ≠
        tickerDir "tr-tefas" "AFT" ++ "/" ++ "2024-01-10" ++ ".txt" ∧
    getFile c7Store2 "data/tr-tefas/AFT/latest.txt" =
      getFile c7Store1 "data/tr-tefas/AFT/latest.txt" :=
  ⟨by decide, by decide,
   save_error_page_frame "tr-tefas" "AFT" "Failed to fetch price (unknown error)"
     "2024-01-10" "2024-01-10" true c7Store1 "data/tr-tefas/AFT/latest.txt"
     (by decide) (by decide)⟩
